import Mathlib

/-!
Shallow embedding of `src/notebooks/multiple_plotly_figs_to_html_file.ipynb`
(repository sfttoolbox). The notebook defines three functions:

  * `combine_plotly_figs_to_html` — writes each figure's HTML serialization
    into one output file, the first as a full document, the rest as
    fragments, with an optional separator and optional per-figure heights;
  * `convert_logo` — reads an image file and returns a base64 data URI;
  * `add_html_header` — prepends a static HTML header to an existing file.

File I/O is modelled by explicit finite maps from paths to contents
(`TextFS` for text files, `BinFS` for binary image files) plus a set of
writable paths; fallible operations return `Except OsError`.  Plotly's
`Figure.to_html` is an external library call, so the combiner is
parameterized by an arbitrary serializer; a figure's mutable layout is
modelled explicitly because `update_layout` mutates it in place.
-/

namespace SftToolbox

/-! ### Base64 (Python `base64.b64encode`, RFC 4648) -/

/-- The 64-character base64 alphabet used by `base64.b64encode`. -/
def b64Alphabet : List Char :=
  "ABCDEFGHIJKLMNOPQRSTUVWXYZabcdefghijklmnopqrstuvwxyz0123456789+/".toList

/-- The base64 digit for a 6-bit value. -/
def b64Char (n : Nat) : Char := b64Alphabet.getD n 'A'

/-- Standard base64 encoding with `=` padding, over a list of byte values,
as produced by Python's `base64.b64encode(...).decode("utf-8")`. -/
def b64encode : List Nat → String
  | [] => ""
  | [a] =>
      let n := a * 65536
      String.mk [b64Char (n / 262144 % 64), b64Char (n / 4096 % 64)] ++ "=="
  | [a, b] =>
      let n := a * 65536 + b * 256
      String.mk [b64Char (n / 262144 % 64), b64Char (n / 4096 % 64),
                 b64Char (n / 64 % 64)] ++ "="
  | a :: b :: c :: rest =>
      let n := a * 65536 + b * 256 + c
      String.mk [b64Char (n / 262144 % 64), b64Char (n / 4096 % 64),
                 b64Char (n / 64 % 64), b64Char (n % 64)] ++ b64encode rest

/-! ### File-system model -/

/-- Errors raised natively by Python file operations in scope here. -/
inductive OsError where
  | fileNotFound (path : String)
  | notWritable (path : String)
deriving DecidableEq, Repr

/-- A text file system: an association list from path to content, with the
most recent write first, plus the set of paths `open(path, "w")` accepts. -/
structure TextFS where
  files : List (String × String)
  writablePaths : List String
deriving DecidableEq, Repr

/-- Reading a text file: `none` when the file does not exist. -/
def TextFS.read (fs : TextFS) (p : String) : Option String :=
  fs.files.lookup p

/-- Whether `open(p, "w")` succeeds. -/
def TextFS.writable (fs : TextFS) (p : String) : Bool :=
  fs.writablePaths.contains p

/-- Writing (creating or truncating) a text file. -/
def TextFS.write (fs : TextFS) (p : String) (c : String) : TextFS :=
  { fs with files := (p, c) :: fs.files }

/-- A binary file system for image files: path to raw bytes. -/
structure BinFS where
  files : List (String × List Nat)
deriving DecidableEq, Repr

/-- Reading a binary file: `none` when the file does not exist. -/
def BinFS.read (fs : BinFS) (p : String) : Option (List Nat) :=
  fs.files.lookup p

/-! ### Figures and serialization -/

/-- The part of a plotly figure layout this code touches. -/
structure Layout where
  height : Option Int
deriving DecidableEq, Repr

/-- A plotly figure: an opaque chart payload plus its mutable layout. -/
structure Figure where
  chart : String
  layout : Layout
deriving DecidableEq, Repr

/-- `fig.update_layout(height=h)`: overwrites the layout height in place. -/
def Figure.update_layout (fig : Figure) (height : Int) : Figure :=
  { fig with layout := { fig.layout with height := some height } }

/-- The `include_plotlyjs` argument of `to_html`: a string mode
(`'cdn'`, `'directory'`, `'inline'`) or the Python value `False`. -/
inductive PlotlyJS where
  | mode (s : String)
  | excluded
deriving DecidableEq, Repr

/-- An abstract `Figure.to_html` (external plotly library call):
arguments are the figure, `full_html`, and `include_plotlyjs`. -/
def Serializer := Figure → Bool → PlotlyJS → String

/-! ### The three notebook functions -/

/-- Python truthiness of an optional list (`if heights and ...`):
`None` and `[]` are falsy. -/
def listTruthy {α : Type} : Option (List α) → Bool
  | none => false
  | some l => !l.isEmpty

/-- Python truthiness of an optional string (`if separator:`):
`None` and `""` are falsy. -/
def strTruthy : Option String → Bool
  | none => false
  | some s => !s.isEmpty

/-- The in-place height update done at index `i` of the loop of
`combine_plotly_figs_to_html`: applied exactly when `heights` is truthy
and `i < len(heights)`. -/
def updatedFig (heights : Option (List Int)) (i : Nat) (fig : Figure) : Figure :=
  if listTruthy heights = true ∧ i < (heights.getD []).length then
    fig.update_layout ((heights.getD []).getD i 0)
  else fig

/-- The loop body of `combine_plotly_figs_to_html`, started at index `i`:
returns the final states of the figure objects (which the loop mutates via
`update_layout`) and the concatenation of everything written to the file. -/
def combineLoop (to_html : Serializer) (include_plotlyjs : String)
    (separator : Option String) (heights : Option (List Int)) :
    Nat → List Figure → List Figure × String
  | _, [] => ([], "")
  | i, fig :: rest =>
      let fig' := updatedFig heights i fig
      let piece :=
        if i = 0 then
          to_html fig' true (PlotlyJS.mode include_plotlyjs)
        else
          (if strTruthy separator = true then separator.getD "" else "") ++
            to_html fig' false PlotlyJS.excluded
      let next := combineLoop to_html include_plotlyjs separator heights (i + 1) rest
      (fig' :: next.1, piece ++ next.2)

/-- `combine_plotly_figs_to_html(plotly_figs, html_fname, include_plotlyjs,
separator, auto_open, heights)`.  Opening the file for writing truncates it;
the loop then writes the first figure as a full HTML document with the given
`include_plotlyjs`, and each later figure (preceded by the separator when it
is truthy) as a fragment with `full_html=False, include_plotlyjs=False`.
On success returns the updated file system and the final states of the
caller's figure objects.  (`auto_open` only opens a browser and is omitted.) -/
def combine_plotly_figs_to_html (to_html : Serializer) (fs : TextFS)
    (plotly_figs : List Figure) (html_fname : String)
    (include_plotlyjs : String) (separator : Option String)
    (heights : Option (List Int)) : Except OsError (TextFS × List Figure) :=
  if fs.writable html_fname = true then
    let r := combineLoop to_html include_plotlyjs separator heights 0 plotly_figs
    Except.ok (fs.write html_fname r.2, r.1)
  else
    Except.error (OsError.notWritable html_fname)

/-- The pure core of `convert_logo`: the data-URI string built from the raw
bytes of the image file. -/
def convert_logo_pure (bytes : List Nat) : String :=
  "data:image/png;base64," ++ b64encode bytes

/-- `convert_logo(file_location)`: opens the file in `"rb"` mode (raising the
native error when it is missing), base64-encodes its raw bytes, and returns
`f"data:image/png;base64,{base64_logo}"`. -/
def convert_logo (fs : BinFS) (file_location : String) : Except OsError String :=
  match fs.read file_location with
  | none => Except.error (OsError.fileNotFound file_location)
  | some bytes => Except.ok (convert_logo_pure bytes)

/-- The literal text of the header f-string before the `logo` interpolation. -/
def headerPart1 : String :=
  "\n    <html>\n        <head>\n            <meta name=\"viewport\" content=\"width=device-width, initial-scale=1\">\n            <style>\n                * \x7b\n                box-sizing: border-box;\n                \x7d\n\n                .column \x7b\n                float: left;\n                padding: 10px;\n                \x7d\n\n                .left, .right \x7b\n                width: 25%;\n                \x7d\n\n                .middle \x7b\n                width: 50%;\n                \x7d\n\n                .row:after \x7b\n                content: \"\";\n                display: table;\n                clear: both;\n                \x7d\n\n                body \x7b\n                    font-family: Calibri, sans-serif;\n                \x7d\n\n                .header \x7b\n                    background-color: #f8f9fa;\n                    padding: 10px 20px;\n                    display: flex;\n                    align-items: center;\n                    border-bottom: 1px solid #ddd;\n                \x7d\n\n                .header img \x7b\n                    height: 40px;\n                    margin-right: 20px;\n                \x7d\n\n                .header h1 \x7b\n                    margin: 0;\n                    font-size: 24px;\n                \x7d\n\n                .content \x7b\n                    padding: 20px;\n                \x7d\n\n                .result \x7b\n                    margin-bottom: 40px;\n                \x7d\n\n                .result h2 \x7b\n                    font-size: 20px;\n                    margin-bottom: 10px;\n                \x7d\n\n                .result img \x7b\n                    max-width: 100%;\n                    height: auto;\n                    display: block;\n                    margin-bottom: 10px;\n                \x7d\n\n                hr \x7b\n                    border: none;\n                    border-top: 1px solid #ddd;\n                    margin: 20px 0;\n                \x7d\n            </style>\n        </head>\n        <body>\n            <div class=\"header\">\n                <img src=\""

/-- The literal text of the header f-string between the `logo` and `title` interpolations. -/
def headerPart2 : String :=
  "\" alt=\"Logo\">\n                <h1>"

/-- The literal text of the header f-string after the `title` interpolation. -/
def headerPart3 : String :=
  "</h1>\n            </div>\n            <div class=\"content\">\n    "

/-- The value of `html_content` in `add_html_header`: the Python f-string
with `logo` and `title` interpolated. -/
def html_content (logo title : String) : String :=
  headerPart1 ++ logo ++ headerPart2 ++ title ++ headerPart3

/-- `add_html_header(html_file, logo, title)`: builds `html_content`, reads
the existing HTML file (raising the native error when it is missing), then
rewrites the file with `html_content + plotly_html`.  The closing
`"</body></html>"` append is commented out in the source and so not done. -/
def add_html_header (fs : TextFS) (html_file : String) (logo : String)
    (title : String) : Except OsError TextFS :=
  match fs.read html_file with
  | none => Except.error (OsError.fileNotFound html_file)
  | some plotly_html =>
      if fs.writable html_file = true then
        Except.ok (fs.write html_file (html_content logo title ++ plotly_html))
      else
        Except.error (OsError.notWritable html_file)

/-! ### Spec-side description of the combiner output

The specification describes the combined file as: the first figure's export
as a complete document, then each later figure's export as a fragment,
joined by the separator.  These definitions restate those words, to be
compared with the loop transcribed from the source. -/

/-- Spec wording: each remaining figure contributes the separator followed
by its fragment serialization (`full_html` disabled, plotly.js excluded). -/
def specFragments (to_html : Serializer) (s : String) : List Figure → String
  | [] => ""
  | fig :: rest =>
      s ++ to_html fig false PlotlyJS.excluded ++ specFragments to_html s rest

/-- Spec wording: the whole file is the first figure's complete-document
serialization (with the requested plotly.js mode) followed by the separated
fragments of the remaining figures. -/
def specCombinedOutput (to_html : Serializer) (include_plotlyjs s : String)
    (first : Figure) (rest : List Figure) : String :=
  to_html first true (PlotlyJS.mode include_plotlyjs) ++
    specFragments to_html s rest

/-! ### Helper lemmas -/

lemma TextFS.read_write (fs : TextFS) (p c : String) :
    (fs.write p c).read p = some c := by
  simp [TextFS.read, TextFS.write, List.lookup]

lemma TextFS.writable_write (fs : TextFS) (p q c : String) :
    (fs.write p c).writable q = fs.writable q := rfl

lemma strTruthy_some (s : String) (h : s ≠ "") : strTruthy (some s) = true := by
  have he : s.isEmpty = false := by
    cases hb : s.isEmpty with
    | false => rfl
    | true => exact absurd ((String.isEmpty_iff s).mp hb) h
  simp [strTruthy, he]

lemma updatedFig_falsy (heights : Option (List Int)) (i : Nat) (fig : Figure)
    (hh : listTruthy heights = false) : updatedFig heights i fig = fig := by
  simp [updatedFig, hh]

lemma combineLoop_fst_falsy (to_html : Serializer) (ipj : String)
    (sep : Option String) (heights : Option (List Int))
    (hh : listTruthy heights = false) :
    ∀ (figs : List Figure) (j : Nat),
      (combineLoop to_html ipj sep heights j figs).1 = figs
  | [], _ => rfl
  | fig :: rest, j => by
      simp [combineLoop, updatedFig_falsy _ _ _ hh,
        combineLoop_fst_falsy to_html ipj sep heights hh rest (j + 1)]

lemma combineLoop_fst_get (to_html : Serializer) (ipj : String)
    (sep : Option String) (heights : Option (List Int)) :
    ∀ (figs : List Figure) (j i : Nat),
      ((combineLoop to_html ipj sep heights j figs).1)[i]? =
        (figs[i]?).map (fun fig => updatedFig heights (j + i) fig)
  | [], _, _ => by simp [combineLoop]
  | fig :: rest, j, 0 => by simp [combineLoop]
  | fig :: rest, j, i + 1 => by
      have ih := combineLoop_fst_get to_html ipj sep heights rest (j + 1) i
      have harith : j + 1 + i = j + (i + 1) := by omega
      simp [combineLoop, ih, harith]

lemma combineLoop_tail_spec (to_html : Serializer) (ipj s : String)
    (hs : s ≠ "") :
    ∀ (figs : List Figure) (i : Nat), i ≠ 0 →
      combineLoop to_html ipj (some s) none i figs =
        (figs, specFragments to_html s figs)
  | [], i, _ => by simp [combineLoop, specFragments]
  | fig :: rest, i, hi => by
      have ih := combineLoop_tail_spec to_html ipj s hs rest (i + 1) (by omega)
      simp [combineLoop, ih, hi, specFragments, strTruthy_some s hs,
        updatedFig_falsy none i fig rfl]

/-! ### Claim theorems -/

/-- C8: on the empty figure list, `combine_plotly_figs_to_html` succeeds,
the output file is truncated to empty content, and no separator is
written. -/
theorem combine_empty_figs_writes_empty_file (to_html : Serializer)
    (fs : TextFS) (fname ipj : String) (sep : Option String)
    (heights : Option (List Int)) (hW : fs.writable fname = true) :
    combine_plotly_figs_to_html to_html fs [] fname ipj sep heights =
        Except.ok (fs.write fname "", []) ∧
      (fs.write fname "").read fname = some "" := by
  constructor
  · simp [combine_plotly_figs_to_html, hW, combineLoop]
  · exact TextFS.read_write fs fname ""

/-- Witness for C8 at a concrete writable file system. -/
theorem combine_empty_figs_writes_empty_file_witness :
    combine_plotly_figs_to_html (fun fig _ _ => fig.chart)
          { files := [], writablePaths := ["out.html"] } [] "out.html" "cdn"
          none none =
        Except.ok
          (TextFS.write { files := [], writablePaths := ["out.html"] }
            "out.html" "", []) ∧
      (TextFS.write { files := [], writablePaths := ["out.html"] } "out.html"
            "").read "out.html" = some "" :=
  combine_empty_figs_writes_empty_file (fun fig _ _ => fig.chart)
    { files := [], writablePaths := ["out.html"] } "out.html" "cdn" none none
    (by decide)

/-- C10: whatever the bytes of the readable input file are (PNG or not),
`convert_logo` returns a string beginning with the fixed prefix
`"data:image/png;base64,"`: the MIME type is always `image/png`. -/
theorem convert_logo_always_png_mime (fsb : BinFS) (p : String)
    (bytes : List Nat) (h : fsb.read p = some bytes) :
    convert_logo fsb p =
        Except.ok ("data:image/png;base64," ++ b64encode bytes) ∧
      "data:image/png;base64,".data <+: (convert_logo_pure bytes).data := by
  constructor
  · simp [convert_logo, h, convert_logo_pure]
  · rw [convert_logo_pure, String.data_append]
    exact List.prefix_append _ _

/-- Witness for C10 on a file whose bytes are not a PNG image. -/
theorem convert_logo_always_png_mime_witness :
    convert_logo { files := [("logo.txt", [104, 105])] } "logo.txt" =
        Except.ok ("data:image/png;base64," ++ b64encode [104, 105]) ∧
      "data:image/png;base64,".data <+:
        (convert_logo_pure [104, 105]).data :=
  convert_logo_always_png_mime { files := [("logo.txt", [104, 105])] }
    "logo.txt" [104, 105] (by decide)

/-- C1: with a non-empty figure list and a non-empty separator string, the
output file content is exactly the first figure's complete-document
serialization (with the requested plotly.js mode) followed, per remaining
figure in order, by the separator and that figure's fragment serialization
(`full_html` disabled, plotly.js excluded); the separator appears only
between consecutive fragments.  Stated with no height overrides; the
figure objects are returned unchanged. -/
theorem combine_first_full_then_separated_fragments (to_html : Serializer)
    (fs : TextFS) (first : Figure) (rest : List Figure)
    (fname ipj s : String) (hW : fs.writable fname = true) (hs : s ≠ "") :
    combine_plotly_figs_to_html to_html fs (first :: rest) fname ipj (some s)
        none =
      Except.ok
        (fs.write fname (specCombinedOutput to_html ipj s first rest),
         first :: rest) := by
  have hloop := combineLoop_tail_spec to_html ipj s hs rest 1 (by omega)
  simp [combine_plotly_figs_to_html, hW, combineLoop, hloop,
    specCombinedOutput, updatedFig_falsy none 0 first rfl]

/-- Witness for C1: two concrete figures with the `"<hr>"` separator. -/
theorem combine_first_full_then_separated_fragments_witness :
    combine_plotly_figs_to_html (fun fig full _ => fig.chart ++
          (if full then "/full" else "/frag"))
        { files := [], writablePaths := ["out.html"] }
        [{ chart := "A", layout := { height := none } },
         { chart := "B", layout := { height := none } }]
        "out.html" "cdn" (some "<hr>") none =
      Except.ok
        (TextFS.write { files := [], writablePaths := ["out.html"] }
           "out.html"
           (specCombinedOutput (fun fig full _ => fig.chart ++
               (if full then "/full" else "/frag")) "cdn" "<hr>"
             { chart := "A", layout := { height := none } }
             [{ chart := "B", layout := { height := none } }]),
         [{ chart := "A", layout := { height := none } },
          { chart := "B", layout := { height := none } }]) :=
  combine_first_full_then_separated_fragments
    (fun fig full _ => fig.chart ++ (if full then "/full" else "/frag"))
    { files := [], writablePaths := ["out.html"] }
    { chart := "A", layout := { height := none } }
    [{ chart := "B", layout := { height := none } }]
    "out.html" "cdn" "<hr>" (by decide) (by decide)

/-- C4 counterexample: with `heights=[400]`, the caller's figure object is
mutated in place by `update_layout`; after the call its layout height is
`some 400`, not its original `none`, so the figures are not consumed
read-only for all values of the heights argument. -/
theorem combine_mutates_figures_with_heights :
    combine_plotly_figs_to_html (fun fig _ _ => fig.chart)
        { files := [], writablePaths := ["out.html"] }
        [{ chart := "fig1", layout := { height := none } }]
        "out.html" "cdn" none (some [400]) =
      Except.ok
        ({ files := [("out.html", "fig1")], writablePaths := ["out.html"] },
         [{ chart := "fig1", layout := { height := some 400 } }]) ∧
    ({ chart := "fig1", layout := { height := some 400 } } : Figure) ≠
      { chart := "fig1", layout := { height := none } } := by
  exact ⟨rfl, by decide⟩

/-- C4 amended: the figures are consumed read-only exactly when the
`heights` argument is falsy (`None` or the empty list); then every figure
is unchanged after the call. -/
theorem combine_read_only_without_heights (to_html : Serializer)
    (fs : TextFS) (figs : List Figure) (fname ipj : String)
    (sep : Option String) (heights : Option (List Int))
    (hW : fs.writable fname = true) (hh : listTruthy heights = false) :
    combine_plotly_figs_to_html to_html fs figs fname ipj sep heights =
      Except.ok
        (fs.write fname (combineLoop to_html ipj sep heights 0 figs).2,
         figs) := by
  simp [combine_plotly_figs_to_html, hW,
    combineLoop_fst_falsy to_html ipj sep heights hh figs 0]

/-- Witness for the amended C4 with `heights = none`. -/
theorem combine_read_only_without_heights_witness :
    combine_plotly_figs_to_html (fun fig _ _ => fig.chart)
        { files := [], writablePaths := ["out.html"] }
        [{ chart := "fig1", layout := { height := none } }]
        "out.html" "cdn" none none =
      Except.ok
        (TextFS.write { files := [], writablePaths := ["out.html"] }
           "out.html"
           (combineLoop (fun fig _ _ => fig.chart) "cdn" none none 0
             [{ chart := "fig1", layout := { height := none } }]).2,
         [{ chart := "fig1", layout := { height := none } }]) :=
  combine_read_only_without_heights (fun fig _ _ => fig.chart)
    { files := [], writablePaths := ["out.html"] }
    [{ chart := "fig1", layout := { height := none } }]
    "out.html" "cdn" none none (by decide) (by decide)

/-- C5: with a non-empty `heights` list of `k` entries, the `i`-th figure
is serialized (and left) with its layout height set to `heights[i]` when
`i < k`, and is serialized unchanged (no height override) when `k ≤ i`. -/
theorem combine_per_figure_height_override (to_html : Serializer)
    (fs : TextFS) (figs : List Figure) (fname ipj : String)
    (sep : Option String) (hts : List Int) (hW : fs.writable fname = true)
    (hne : hts ≠ []) (i : Nat) (fig : Figure) (hfig : figs[i]? = some fig) :
    (combine_plotly_figs_to_html to_html fs figs fname ipj sep
          (some hts)).map (fun r => r.2[i]?) =
      Except.ok (some (if i < hts.length then
        fig.update_layout (hts.getD i 0) else fig)) := by
  have hget := combineLoop_fst_get to_html ipj sep (some hts) figs 0 i
  have hl : listTruthy (some hts) = true := by
    cases hts with
    | nil => exact absurd rfl hne
    | cons a l => rfl
  simp [combine_plotly_figs_to_html, hW, Except.map, hget, hfig,
    updatedFig, hl]

/-- Witness for C5: first of two figures with `heights=[400]`. -/
theorem combine_per_figure_height_override_witness :
    (combine_plotly_figs_to_html (fun fig _ _ => fig.chart)
          { files := [], writablePaths := ["out.html"] }
          [{ chart := "A", layout := { height := none } },
           { chart := "B", layout := { height := none } }]
          "out.html" "cdn" none (some [400])).map (fun r => r.2[0]?) =
      Except.ok (some (if 0 < ([400] : List Int).length then
        Figure.update_layout { chart := "A", layout := { height := none } }
          (([400] : List Int).getD 0 0)
        else { chart := "A", layout := { height := none } })) :=
  combine_per_figure_height_override (fun fig _ _ => fig.chart)
    { files := [], writablePaths := ["out.html"] }
    [{ chart := "A", layout := { height := none } },
     { chart := "B", layout := { height := none } }]
    "out.html" "cdn" none [400] (by decide) (by decide) 0
    { chart := "A", layout := { height := none } } (by decide)

/-- C2 counterexample: the string `convert_logo` returns — which
`add_html_header` interpolates, unmodified, as the `img` tag's `src` — is
the full data URI, which is not equal to the bare base64 encoding of the
input bytes: for the one-byte file `[97]` the result is
`"data:image/png;base64,YQ=="` while the bare encoding is `"YQ=="`. -/
theorem convert_logo_src_ne_bare_base64 :
    convert_logo { files := [("yhat.png", [97])] } "yhat.png" =
        Except.ok (convert_logo_pure [97]) ∧
      convert_logo_pure [97] ≠ b64encode [97] := by
  exact ⟨rfl, by decide⟩

/-- C2 amended: `convert_logo` returns the data-URI string whose base64
payload is the base64 encoding of the file's raw bytes; the `img` tag's
`src` equals this data URI, i.e. the fixed prefix
`"data:image/png;base64,"` followed by the base64 encoding of the input
bytes (not the bare encoding). -/
theorem convert_logo_data_uri_payload (fsb : BinFS) (p : String)
    (bytes : List Nat) (h : fsb.read p = some bytes) :
    convert_logo fsb p =
      Except.ok ("data:image/png;base64," ++ b64encode bytes) := by
  simp [convert_logo, h, convert_logo_pure]

/-- Witness for the amended C2 at a concrete two-byte file. -/
theorem convert_logo_data_uri_payload_witness :
    convert_logo { files := [("yhat.png", [1, 2])] } "yhat.png" =
      Except.ok ("data:image/png;base64," ++ b64encode [1, 2]) :=
  convert_logo_data_uri_payload { files := [("yhat.png", [1, 2])] }
    "yhat.png" [1, 2] (by decide)

/-- C3: `add_html_header` on a file with content `c` rewrites it to the
static header shell (inline CSS, an `img` whose `src` is the logo string,
an `h1` with the title) immediately followed by `c`; the previous content
is preserved unchanged as a suffix. -/
theorem add_html_header_prepends_header (fs : TextFS)
    (fname c logo title : String) (hr : fs.read fname = some c)
    (hw : fs.writable fname = true) :
    add_html_header fs fname logo title =
        Except.ok (fs.write fname (html_content logo title ++ c)) ∧
      (fs.write fname (html_content logo title ++ c)).read fname =
        some (html_content logo title ++ c) ∧
      c.data <:+ (html_content logo title ++ c).data := by
  refine ⟨?_, TextFS.read_write fs fname _, ?_⟩
  · simp [add_html_header, hr, hw]
  · rw [String.data_append]
    exact List.suffix_append _ _

/-- Witness for C3 at a concrete file containing `"OLD"`. -/
theorem add_html_header_prepends_header_witness :
    add_html_header { files := [("f.html", "OLD")], writablePaths := ["f.html"] }
        "f.html" "L" "T" =
        Except.ok
          (TextFS.write { files := [("f.html", "OLD")], writablePaths := ["f.html"] }
            "f.html" (html_content "L" "T" ++ "OLD")) ∧
      (TextFS.write { files := [("f.html", "OLD")], writablePaths := ["f.html"] }
          "f.html" (html_content "L" "T" ++ "OLD")).read "f.html" =
        some (html_content "L" "T" ++ "OLD") ∧
      ("OLD" : String).data <:+ (html_content "L" "T" ++ "OLD").data :=
  add_html_header_prepends_header
    { files := [("f.html", "OLD")], writablePaths := ["f.html"] }
    "f.html" "OLD" "L" "T" (by decide) (by decide)

lemma headerPart1_length_pos : 0 < headerPart1.length := by
  cases h : headerPart1.data with
  | nil =>
      have hd : headerPart1.data.head? = some '\n' := rfl
      rw [h] at hd
      cases hd
  | cons a l =>
      have he : headerPart1.length = headerPart1.data.length := rfl
      rw [he, h]
      simp

lemma html_content_length (logo title : String) :
    (html_content logo title).length =
      headerPart1.length + logo.length + headerPart2.length +
        title.length + headerPart3.length := by
  simp [html_content, String.length_append]

lemma html_content_length_pos (logo title : String) :
    0 < (html_content logo title).length := by
  have h := html_content_length logo title
  have h1 := headerPart1_length_pos
  omega

/-- C9: `add_html_header` is not idempotent — a second application yields
header + header + original content, which differs from the content after a
single application; each call grows the content by exactly the header's
length; and the closing `</body></html>` tags are never appended (the
written content is `html_content ++ old`, not that string followed by the
closing tags). -/
theorem add_html_header_not_idempotent (fs : TextFS)
    (fname c logo title : String) (hr : fs.read fname = some c)
    (hw : fs.writable fname = true) :
    add_html_header fs fname logo title =
        Except.ok (fs.write fname (html_content logo title ++ c)) ∧
      add_html_header (fs.write fname (html_content logo title ++ c)) fname
          logo title =
        Except.ok
          ((fs.write fname (html_content logo title ++ c)).write fname
            (html_content logo title ++ (html_content logo title ++ c))) ∧
      html_content logo title ++ (html_content logo title ++ c) ≠
        html_content logo title ++ c ∧
      (html_content logo title ++ c).length =
        c.length + (html_content logo title).length ∧
      html_content logo title ++ c ≠
        (html_content logo title ++ c) ++ "</body></html>" := by
  have hpos := html_content_length_pos logo title
  refine ⟨?_, ?_, ?_, ?_, ?_⟩
  · simp [add_html_header, hr, hw]
  · have hread := TextFS.read_write fs fname (html_content logo title ++ c)
    have hw' : (fs.write fname (html_content logo title ++ c)).writable
        fname = true := by
      rw [TextFS.writable_write]
      exact hw
    simp [add_html_header, hread, hw']
  · intro h
    have hlen := congrArg String.length h
    simp [String.length_append] at hlen
    omega
  · simp [String.length_append]
    omega
  · intro h
    have hlen := congrArg String.length h
    simp [String.length_append] at hlen
    have h14 : 0 < ("</body></html>" : String).length := by decide
    omega

/-- Witness for C9 at a concrete file containing `"X"`. -/
theorem add_html_header_not_idempotent_witness :
    html_content "L" "T" ++ (html_content "L" "T" ++ "X") ≠
      html_content "L" "T" ++ "X" :=
  (add_html_header_not_idempotent
    { files := [("f.html", "X")], writablePaths := ["f.html"] }
    "f.html" "X" "L" "T" (by decide) (by decide)).2.2.1

/-- C6: each operation fails exactly when the underlying file open fails
(`convert_logo` on a missing file, the writers on an unwritable path), the
native error is returned untransformed (no catch, retry, or structured
result), and otherwise the operation succeeds. -/
theorem native_errors_propagated (fsb : BinFS) (p : String)
    (to_html : Serializer) (fs : TextFS) (figs : List Figure)
    (fname ipj : String) (sep : Option String) (heights : Option (List Int))
    (logo title : String) :
    ((convert_logo fsb p).isOk = (fsb.read p).isSome) ∧
      (fsb.read p = none →
        convert_logo fsb p = Except.error (OsError.fileNotFound p)) ∧
      ((combine_plotly_figs_to_html to_html fs figs fname ipj sep
          heights).isOk = fs.writable fname) ∧
      (fs.writable fname = false →
        combine_plotly_figs_to_html to_html fs figs fname ipj sep heights =
          Except.error (OsError.notWritable fname)) ∧
      ((add_html_header fs fname logo title).isOk =
        ((fs.read fname).isSome && fs.writable fname)) ∧
      (fs.read fname = none →
        add_html_header fs fname logo title =
          Except.error (OsError.fileNotFound fname)) := by
  refine ⟨?_, ?_, ?_, ?_, ?_, ?_⟩
  · cases h : fsb.read p <;> simp [convert_logo, h, Except.isOk, Except.toBool]
  · intro h
    simp [convert_logo, h]
  · cases h : fs.writable fname <;>
      simp [combine_plotly_figs_to_html, h, Except.isOk, Except.toBool]
  · intro h
    simp [combine_plotly_figs_to_html, h]
  · cases h : fs.read fname <;> cases h2 : fs.writable fname <;>
      simp [add_html_header, h, h2, Except.isOk, Except.toBool]
  · intro h
    simp [add_html_header, h]

/-- Witness for C6: the three native failures at concrete file systems. -/
theorem native_errors_propagated_witness :
    convert_logo { files := [] } "missing.png" =
        Except.error (OsError.fileNotFound "missing.png") ∧
      combine_plotly_figs_to_html (fun fig _ _ => fig.chart)
          { files := [], writablePaths := [] } [] "out.html" "cdn" none
          none =
        Except.error (OsError.notWritable "out.html") ∧
      add_html_header { files := [], writablePaths := [] } "out.html" "L"
          "T" =
        Except.error (OsError.fileNotFound "out.html") :=
  ⟨(native_errors_propagated { files := [] } "missing.png"
      (fun fig _ _ => fig.chart) { files := [], writablePaths := [] } []
      "out.html" "cdn" none none "L" "T").2.1 (by decide),
   (native_errors_propagated { files := [] } "missing.png"
      (fun fig _ _ => fig.chart) { files := [], writablePaths := [] } []
      "out.html" "cdn" none none "L" "T").2.2.2.1 (by decide),
   (native_errors_propagated { files := [] } "missing.png"
      (fun fig _ _ => fig.chart) { files := [], writablePaths := [] } []
      "out.html" "cdn" none none "L" "T").2.2.2.2.2 (by decide)⟩

/-- C7: the operations are deterministic with no state shared across
calls — results depend only on the inputs: `convert_logo` on files with
identical bytes returns identical strings (whatever the paths and the rest
of the file system), and the two writers produce identical output-file
contents from identical figure serializations / prior contents. -/
theorem operations_deterministic (fsb₁ fsb₂ : BinFS) (p₁ p₂ : String)
    (bytes : List Nat) (h₁ : fsb₁.read p₁ = some bytes)
    (h₂ : fsb₂.read p₂ = some bytes) (to_html : Serializer)
    (figs : List Figure) (fs₁ fs₂ : TextFS) (f₁ f₂ ipj : String)
    (sep : Option String) (heights : Option (List Int))
    (hw₁ : fs₁.writable f₁ = true) (hw₂ : fs₂.writable f₂ = true)
    (c logo title : String) (hr₁ : fs₁.read f₁ = some c)
    (hr₂ : fs₂.read f₂ = some c) :
    convert_logo fsb₁ p₁ = convert_logo fsb₂ p₂ ∧
      (combine_plotly_figs_to_html to_html fs₁ figs f₁ ipj sep heights).map
          (fun r => r.1.read f₁) =
        (combine_plotly_figs_to_html to_html fs₂ figs f₂ ipj sep
            heights).map (fun r => r.1.read f₂) ∧
      (add_html_header fs₁ f₁ logo title).map (fun r => r.read f₁) =
        (add_html_header fs₂ f₂ logo title).map (fun r => r.read f₂) := by
  refine ⟨?_, ?_, ?_⟩
  · simp [convert_logo, h₁, h₂]
  · simp [combine_plotly_figs_to_html, hw₁, hw₂, Except.map,
      TextFS.read_write]
  · simp [add_html_header, hr₁, hr₂, hw₁, hw₂, Except.map,
      TextFS.read_write]

/-- Witness for C7: two different file systems and paths holding the same
bytes / contents give identical results. -/
theorem operations_deterministic_witness :
    convert_logo { files := [("a.png", [1, 2])] } "a.png" =
      convert_logo { files := [("z.png", [9]), ("b.png", [1, 2])] }
        "b.png" :=
  (operations_deterministic { files := [("a.png", [1, 2])] }
    { files := [("z.png", [9]), ("b.png", [1, 2])] } "a.png" "b.png"
    [1, 2] (by decide) (by decide) (fun fig _ _ => fig.chart) []
    { files := [("x.html", "C")], writablePaths := ["x.html"] }
    { files := [("pad", "z"), ("y.html", "C")], writablePaths := ["y.html"] }
    "x.html" "y.html" "cdn" none none (by decide) (by decide) "C" "L" "T"
    (by decide) (by decide)).1

end SftToolbox
